import Mathlib

/-!
Shallow embedding of `specmatchemp/library.py`: the `Library` container for
stellar spectra and stellar parameters, its constructor validation, `insert`,
HDF serialization (`to_hdf` / `read_hdf`) and the container protocol, with
theorems checking the documented behaviour against this embedding.

Conventions of the embedding:
* pandas `DataFrame`s are ordered column-name lists plus ordered rows, each
  row carrying its integer index label and its cells as an association list;
* numpy 3-d arrays are a leading-axis list of slabs plus the two trailing
  axis sizes (so that the shape of an array with an empty leading axis is
  still observable, as it is for numpy);
* floating point sample values are modelled as rationals;
* Python exceptions are modelled by an error type, fallible operations
  return `Except` (or, for the in-place `insert`, the updated object paired
  with an optional error);
* `datetime.date.today()` is modelled by passing the current date string
  explicitly to the operations that read the clock.
-/

namespace SpecMatchEmp

/-- The Python exceptions that `library.py` can raise. -/
inductive PyError where
  | assertionError (msg : String)
  | keyError
  | indexError (msg : String)
  | nameError (missing : String)
  | zeroDivisionError
  | attributeError (msg : String)
  | valueError (msg : String)
  deriving DecidableEq, Repr

/-- A cell value of the parameter table: integer, numeric, string or NaN
(missing). -/
inductive PValue where
  | int (n : Int)
  | num (q : ℚ)
  | str (s : String)
  | nan
  deriving DecidableEq, Repr

/-- One row of a pandas DataFrame: its integer index label and its cells,
keyed by column name. -/
structure Row where
  label : Int
  cells : List (String × PValue)
  deriving DecidableEq, Repr

/-- A pandas DataFrame: ordered column names and ordered rows. -/
structure DataFrame where
  columns : List String
  rows : List Row
  deriving DecidableEq, Repr

/-- A numpy array of shape `(data.length, shape2, shape3)`.  The two trailing
axis sizes are recorded so they remain observable when the leading axis is
empty, as numpy keeps them. -/
structure NDArray3 where
  shape2 : Nat
  shape3 : Nat
  data : List (List (List ℚ))
  deriving DecidableEq, Repr

/-- Python dict assignment `d[k] = v` on an insertion-ordered string map:
replaces the value in place when the key already exists, appends otherwise. -/
def setKey (h : List (String × String)) (k v : String) : List (String × String) :=
  if h.any (fun p => p.1 == k) then
    h.map (fun p => if p.1 == k then (k, v) else p)
  else h ++ [(k, v)]

/-- `LIB_COLS`: the 19 required columns of the parameter table. -/
def LIB_COLS : List String :=
  ["lib_index", "cps_name", "obs", "lib_obs", "Teff", "u_Teff", "radius",
   "u_radius", "logg", "u_logg", "feh", "u_feh", "mass", "u_mass", "age",
   "u_age", "vsini", "source", "source_name"]

/-- The `Library` object: parameter table, wavelength scale, spectrum array
of shape `(N, 2, W)`, metadata header and the optional wavelength limits. -/
structure Library where
  library_params : DataFrame
  wav : List ℚ
  library_spectra : NDArray3
  header : List (String × String)
  wavlim : Option (ℚ × ℚ)
  deriving DecidableEq, Repr

/-- `Library.__init__`.  `today` models `str(datetime.date.today())`.  When
either `library_spectra` or `library_params` is absent it builds the empty
library; otherwise it runs the four assert checks in source order (required
columns, table/array length equality, row index bounds, array shape) and, on
success, stores the data and stamps `header["date_created"]` with today. -/
def Library.init (today : String) (wav : List ℚ)
    (library_spectra : Option NDArray3) (library_params : Option DataFrame)
    (header : List (String × String)) (wavlim : Option (ℚ × ℚ)) :
    Except PyError Library :=
  match library_spectra, library_params with
  | some spectra, some params =>
    match LIB_COLS.find? (fun c => !(params.columns.contains c)) with
    | some c => .error (.assertionError (c ++ " required in parameter table"))
    | none =>
      let num_spec := spectra.data.length
      if params.rows.length ≠ num_spec then
        .error (.assertionError
          "Error: Length of parameter table and library spectra are not equal.")
      else
        match params.rows.find? (fun r => !(decide (r.label < (num_spec : Int)))) with
        | some r => .error (.assertionError
            ("Error: Index " ++ toString r.label ++
             " is out of bounds in library_spectra"))
        | none =>
          if spectra.shape2 = 2 ∧ spectra.shape3 = wav.length then
            .ok { library_params := params, wav := wav,
                  library_spectra := spectra,
                  header := setKey header "date_created" today,
                  wavlim := wavlim }
          else
            .error (.assertionError
              ("Error: library_spectra should have shape (" ++
               toString num_spec ++ ", 2, " ++ toString wav.length))
  | _, _ =>
    .ok { library_params := { columns := LIB_COLS, rows := [] },
          wav := wav,
          library_spectra := { shape2 := 2, shape3 := wav.length, data := [] },
          header := [("date_created", today)],
          wavlim := wavlim }

/-- `len(library)`: the leading-axis size of `library_spectra`. -/
def Library.len (lib : Library) : Nat :=
  lib.library_spectra.data.length

/-- `library.__contains__(index)`: is the index a label of the parameter
table's index? -/
def Library.containsIdx (lib : Library) (index : Int) : Bool :=
  lib.library_params.rows.any (fun r => r.label == index)

/-- `library.__getitem__(index)`.  An absent index raises `KeyError`.  For a
present index, `self.library_params.loc[index]` evaluates fine but the code
then evaluates `self.library_spectra.loc[index]` on a numpy array, which has
no attribute `loc`, so an `AttributeError` is raised. -/
def Library.getitem (lib : Library) (index : Int) :
    Except PyError (Row × List (List ℚ)) :=
  if lib.containsIdx index then
    .error (.attributeError "numpy.ndarray object has no attribute loc")
  else
    .error .keyError

/-- `row.setCell k v`: overwrite the value of column `k` in the row (the
effect of a pandas column assignment on one row; a key not present in the
cells is left untouched). -/
def Row.setCell (r : Row) (k : String) (v : PValue) : Row :=
  { r with cells := r.cells.map (fun c => if c.1 == k then (k, v) else c) }

/-- `df.k = v` for an existing column `k`: assigns `v` to that column in
every row. -/
def DataFrame.setCol (df : DataFrame) (k : String) (v : PValue) : DataFrame :=
  { df with rows := df.rows.map (fun r => r.setCell k v) }

/-- `pd.concat((a, b), ignore_index=True)`: rows of `a` then rows of `b`,
relabelled densely from 0; columns of `a` then the new columns of `b`. -/
def DataFrame.concatIgnoreIndex (a b : DataFrame) : DataFrame :=
  { columns := a.columns ++ b.columns.filter (fun c => !(a.columns.contains c)),
    rows := (a.rows ++ b.rows).enum.map (fun p => { p.2 with label := (p.1 : Int) }) }

/-- `Library.insert(params, spectrum, u_spectrum)`.  Runs the three assert
checks in source order (table/array length equality, required columns of
`params`, spectrum length against the wavelength scale); on failure returns
the untouched library with the assertion error, on success assigns
`params.lib_index = len(self.library_spectra)`, concatenates the row(s) onto
the parameter table with `ignore_index=True` and stacks
`[[spectrum, u_spectrum]]` onto the spectrum array. -/
def Library.insert (lib : Library) (params : DataFrame)
    (spectrum u_spectrum : List ℚ) : Library × Option PyError :=
  if lib.library_params.rows.length ≠ lib.library_spectra.data.length then
    (lib, some (.assertionError
      "Error: Length of parameter table and library spectra are not equal."))
  else
    match LIB_COLS.find? (fun c => !(params.columns.contains c)) with
    | some c => (lib, some (.assertionError (c ++ " required in parameter specification.")))
    | none =>
      if spectrum.length ≠ lib.wav.length then
        (lib, some (.assertionError
          "Error: spectrum is not the same length as library wavelength array"))
      else
        let stamped := params.setCol "lib_index" (.int (lib.library_spectra.data.length : Int))
        ({ lib with
            library_params := lib.library_params.concatIgnoreIndex stamped,
            library_spectra := { lib.library_spectra with
              data := lib.library_spectra.data ++ [[spectrum, u_spectrum]] } },
         none)

/-- The on-disk parameter file: the table written by
`library_params.to_hdf(paramfile, "library_params", format="table", mode="w")`. -/
structure ParamFile where
  df : DataFrame
  deriving DecidableEq, Repr

/-- The on-disk spectrum file: root attributes (the header), the `wav`
dataset and the `library_spectra` dataset. -/
structure SpecFile where
  attrs : List (String × String)
  wav : List ℚ
  library_spectra : NDArray3
  deriving DecidableEq, Repr

/-- `Library.to_hdf(paramfile, specfile)`.  The chunk-size computation
evaluates `self.library_spectra[:,:,0]`, which raises `IndexError` when the
wavelength axis of the array is empty, and divides the 100000-byte target by
that slab's byte count `N * shape2 * 8`, which raises `ZeroDivisionError`
when the slab is empty.  The resulting chunk shape
`(N, 2, int(100e3 / nbytes))` is then handed to `create_dataset`, which
rejects it with `ValueError` when any chunk dimension exceeds the
corresponding data dimension (h5py: chunk shape must not be greater than
data shape in any dimension) or, failing that, when any chunk dimension is
zero (HDF5 requires positive chunk dimensions).  Only then are both files
written. -/
def Library.to_hdf (lib : Library) : Except PyError (ParamFile × SpecFile) :=
  if lib.library_spectra.shape3 = 0 then
    .error (.indexError "index 0 is out of bounds for axis 2 with size 0")
  else
    let nbytes := lib.library_spectra.data.length * lib.library_spectra.shape2 * 8
    if nbytes = 0 then
      .error .zeroDivisionError
    else
      let chunk_row := lib.library_spectra.data.length
      let chunk_col := 100000 / nbytes
      if chunk_row > lib.library_spectra.data.length ∨ 2 > lib.library_spectra.shape2 ∨
          chunk_col > lib.library_spectra.shape3 then
        .error (.valueError
          "Chunk shape must not be greater than data shape in any dimension")
      else if chunk_row = 0 ∨ chunk_col = 0 then
        .error (.valueError "All chunk dimensions must be positive")
      else
        .ok ({ df := lib.library_params },
             { attrs := lib.header, wav := lib.wav,
               library_spectra := lib.library_spectra })

/-- `read_hdf(paramfile, specfile, wavlim)`.  Reads the table, header and
wavelength scale.  Without limits it reads the whole spectrum array and
builds the `Library`.  With limits `(lo, hi)` it computes
`idxwav = np.where((wav > lo) & (wav < hi))`; `idxwav[0]` raises
`IndexError` when no sample qualifies, and otherwise the next statement
reads `h5["library_spectra"]` where no name `h5` is defined, raising
`NameError`. -/
def read_hdf (today : String) (paramfile : ParamFile) (specfile : SpecFile)
    (wavlim : Option (ℚ × ℚ)) : Except PyError Library :=
  let library_params := paramfile.df
  let header := specfile.attrs
  let wav := specfile.wav
  match wavlim with
  | none =>
      Library.init today wav (some specfile.library_spectra)
        (some library_params) header wavlim
  | some lims =>
      let idxwav := (List.range wav.length).filter
        (fun i => decide (lims.1 < wav.getD i 0) && decide (wav.getD i 0 < lims.2))
      match idxwav with
      | [] => .error (.indexError "index 0 is out of bounds for axis 0 with size 0")
      | _ :: _ => .error (.nameError "h5")

/-- Repeated `library.insert(...)` calls, stopping at the first failure:
models a caller inserting a batch of rows one by one. -/
def Library.insertAll (lib : Library) :
    List (DataFrame × List ℚ × List ℚ) → Library × Option PyError
  | [] => (lib, none)
  | (p, s, u) :: rest =>
    match lib.insert p s u with
    | (lib2, none) => lib2.insertAll rest
    | (lib2, some e) => (lib2, some e)

/-- A well-formed argument triple for `insert`: a one-row DataFrame whose
row's cell keys are exactly its columns, carrying all required columns, and
a spectrum matching the wavelength scale. -/
def validItem (wav : List ℚ) (x : DataFrame × List ℚ × List ℚ) : Prop :=
  x.1.rows.length = 1 ∧
  (∀ r ∈ x.1.rows, r.cells.map Prod.fst = x.1.columns) ∧
  (∀ c ∈ LIB_COLS, x.1.columns.contains c = true) ∧
  x.2.1.length = wav.length

instance validItemDecidable (wav : List ℚ) (x : DataFrame × List ℚ × List ℚ) :
    Decidable (validItem wav x) :=
  inferInstanceAs (Decidable (x.1.rows.length = 1 ∧
    (∀ r ∈ x.1.rows, r.cells.map Prod.fst = x.1.columns) ∧
    (∀ c ∈ LIB_COLS, x.1.columns.contains c = true) ∧
    x.2.1.length = wav.length))

/-- The expected `lib_index` column of a library built by `n` sequential
inserts: the values `0, 1, ..., n - 1`. -/
def idxMap (n : Nat) : List (Option PValue) :=
  (List.range n).map (fun i => some (PValue.int (i : Int)))

/-- A full set of cells for the 19 required columns: library index 0,
every other value NaN (missing values are allowed). -/
def sampleCells : List (String × PValue) :=
  LIB_COLS.map (fun c => (c, if c == "lib_index" then PValue.int 0 else PValue.nan))

/-- A one-row parameter table with all required columns and index label 0. -/
def sampleRowDF : DataFrame :=
  { columns := LIB_COLS, rows := [{ label := 0, cells := sampleCells }] }

/-- A spectrum array of shape (1, 2, 1). -/
def sampleSpectra : NDArray3 :=
  { shape2 := 2, shape3 := 1, data := [[[1], [1]]] }

/-- A concrete one-entry library over the single-sample wavelength scale
`[5000]`. -/
def sampleLib : Library :=
  { library_params := sampleRowDF, wav := [5000],
    library_spectra := sampleSpectra,
    header := [("date_created", "2026-10-12")], wavlim := none }

/-- A concrete empty library (`N = 0`) over the wavelength scale `[5000]`,
as produced by the empty-library constructor path. -/
def emptyLib : Library :=
  { library_params := { columns := LIB_COLS, rows := [] },
    wav := [5000],
    library_spectra := { shape2 := 2, shape3 := 1, data := [] },
    header := [("date_created", "2026-10-12")], wavlim := none }

/-- The parameter file written for `sampleLib`. -/
def sampleParamFile : ParamFile :=
  { df := sampleRowDF }

/-- The spectrum file written for `sampleLib`. -/
def sampleSpecFile : SpecFile :=
  { attrs := [("date_created", "2026-10-12")], wav := [5000],
    library_spectra := sampleSpectra }

/-- A one-row parameter table whose row carries the negative index label
`-1` (a label outside `[0, N)` from below). -/
def negRowDF : DataFrame :=
  { columns := LIB_COLS, rows := [{ label := -1, cells := sampleCells }] }

/-- A one-row parameter table whose row carries the index label `5` (a
label outside `[0, N)` from above for a one-entry spectrum array). -/
def oobRowDF : DataFrame :=
  { columns := LIB_COLS, rows := [{ label := 5, cells := sampleCells }] }

/-- A parameter table with no columns at all: every required column is
missing. -/
def emptyColsDF : DataFrame :=
  { columns := [], rows := [] }

/-- A spectrum array whose axis-1 size is 1 instead of 2. -/
def badShapeSpectra : NDArray3 :=
  { shape2 := 1, shape3 := 1, data := [[[1]]] }

/-- The empty library over an empty wavelength axis, as produced by the
empty constructor path with an empty axis: tensor shape (0, 2, 0). -/
def emptyAxisLib : Library :=
  { library_params := { columns := LIB_COLS, rows := [] },
    wav := [],
    library_spectra := { shape2 := 2, shape3 := 0, data := [] },
    header := [("date_created", "2026-10-12")], wavlim := none }

/-- A 79-row parameter table with all required columns and labels 0..78. -/
def bigRowDF : DataFrame :=
  { columns := LIB_COLS,
    rows := (List.range 79).map (fun i => { label := (i : Int), cells := sampleCells }) }

/-- A spectrum array of shape (79, 2, 79). -/
def bigSpectra : NDArray3 :=
  { shape2 := 2, shape3 := 79,
    data := List.replicate 79 [List.replicate 79 (1 : ℚ), List.replicate 79 (1 : ℚ)] }

/-- A 79-entry library over a 79-sample wavelength axis.  Its chunk column
count 100000 / (16 * 79) = 79 fits inside the axis, so this library is one
that the save path's chunk validation accepts. -/
def bigLib : Library :=
  { library_params := bigRowDF, wav := List.replicate 79 (5000 : ℚ),
    library_spectra := bigSpectra,
    header := [("date_created", "2026-10-12")], wavlim := none }

/-! ### Association-list helper lemmas -/

theorem lookup_map_replace {β : Type} (l : List (String × β)) (k : String) (v : β)
    (hk : k ∈ l.map Prod.fst) :
    (l.map (fun c => if c.1 == k then (k, v) else c)).lookup k = some v := by
  induction l with
  | nil => simp at hk
  | cons a t ih =>
    rw [List.map_cons]
    by_cases h : a.1 = k
    · have hb : (a.1 == k) = true := beq_iff_eq.mpr h
      rw [if_pos hb]
      simp [List.lookup]
    · have hb : (a.1 == k) = false := beq_eq_false_iff_ne.mpr h
      have hb2 : (k == a.1) = false := beq_eq_false_iff_ne.mpr (Ne.symm h)
      rw [if_neg (by simp [hb])]
      have hk2 : k ∈ t.map Prod.fst := by
        rcases List.mem_map.mp hk with ⟨p, hp, hpk⟩
        rcases List.mem_cons.mp hp with hhead | htail
        · exact absurd (hhead ▸ hpk) h
        · exact List.mem_map.mpr ⟨p, htail, hpk⟩
      simp only [List.lookup, hb2]
      exact ih hk2

theorem lookup_map_replace_ne {β : Type} (l : List (String × β)) (k : String) (v : β)
    (k' : String) (hne : k' ≠ k) :
    (l.map (fun c => if c.1 == k then (k, v) else c)).lookup k' = l.lookup k' := by
  induction l with
  | nil => rfl
  | cons a t ih =>
    rw [List.map_cons]
    by_cases h : a.1 = k
    · have hbk : (a.1 == k) = true := beq_iff_eq.mpr h
      have h1 : (k' == k) = false := beq_eq_false_iff_ne.mpr hne
      have h2 : (k' == a.1) = false := by rw [h]; exact h1
      rw [if_pos hbk]
      simp only [List.lookup, h1, h2]
      exact ih
    · have hb : (a.1 == k) = false := beq_eq_false_iff_ne.mpr h
      rw [if_neg (by simp [hb])]
      cases hka : (k' == a.1) with
      | true => simp only [List.lookup, hka]
      | false =>
        simp only [List.lookup, hka]
        exact ih

theorem lookup_append_left_none {β : Type} (l₁ l₂ : List (String × β)) (k : String)
    (h : l₁.lookup k = none) : (l₁ ++ l₂).lookup k = l₂.lookup k := by
  induction l₁ with
  | nil => rfl
  | cons a t ih =>
    cases hka : (k == a.1) with
    | true => simp [List.lookup, hka] at h
    | false =>
      simp only [List.lookup, hka] at h
      simp [List.lookup, hka, ih h]

theorem lookup_append_right_none {β : Type} (l₁ l₂ : List (String × β)) (k : String)
    (h : l₂.lookup k = none) : (l₁ ++ l₂).lookup k = l₁.lookup k := by
  induction l₁ with
  | nil => simpa using h
  | cons a t ih =>
    cases hka : (k == a.1) with
    | true => simp [List.lookup, hka]
    | false => simp [List.lookup, hka, ih]

theorem lookup_eq_none_of_forall {β : Type} (l : List (String × β)) (k : String)
    (h : ∀ p ∈ l, (p.1 == k) = false) : l.lookup k = none := by
  induction l with
  | nil => rfl
  | cons a t ih =>
    have h1 : (k == a.1) = false := by
      have h0 := h a (List.mem_cons_self a t)
      rw [beq_eq_false_iff_ne] at h0 ⊢
      exact Ne.symm h0
    simp only [List.lookup, h1]
    exact ih (fun p hp => h p (List.mem_cons_of_mem a hp))

theorem setKey_lookup_self (h : List (String × String)) (k v : String) :
    (setKey h k v).lookup k = some v := by
  unfold setKey
  by_cases hc : h.any (fun p => p.1 == k) = true
  · rw [if_pos hc]
    apply lookup_map_replace
    rcases List.any_eq_true.mp hc with ⟨p, hp, hpk⟩
    exact List.mem_map.mpr ⟨p, hp, beq_iff_eq.mp hpk⟩
  · rw [if_neg hc]
    have hnone : h.lookup k = none := by
      apply lookup_eq_none_of_forall
      intro p hp
      by_contra hb
      exact hc (List.any_eq_true.mpr ⟨p, hp, by simpa using hb⟩)
    rw [lookup_append_left_none h [(k, v)] k hnone]
    simp [List.lookup]

theorem setKey_lookup_ne (h : List (String × String)) (k v k' : String)
    (hne : k' ≠ k) : (setKey h k v).lookup k' = h.lookup k' := by
  unfold setKey
  by_cases hc : h.any (fun p => p.1 == k) = true
  · rw [if_pos hc]
    exact lookup_map_replace_ne h k v k' hne
  · rw [if_neg hc]
    apply lookup_append_right_none
    simp [List.lookup, beq_eq_false_iff_ne.mpr hne]

/-! ### Constructor helper lemmas -/

theorem init_full_ok (today : String) (wav : List ℚ) (spectra : NDArray3)
    (params : DataFrame) (header : List (String × String)) (wavlim : Option (ℚ × ℚ))
    (hcols : ∀ c ∈ LIB_COLS, params.columns.contains c = true)
    (hlen : params.rows.length = spectra.data.length)
    (hidx : ∀ r ∈ params.rows, r.label < (spectra.data.length : Int))
    (hshape : spectra.shape2 = 2 ∧ spectra.shape3 = wav.length) :
    Library.init today wav (some spectra) (some params) header wavlim =
      .ok { library_params := params, wav := wav, library_spectra := spectra,
            header := setKey header "date_created" today, wavlim := wavlim } := by
  have hfind : LIB_COLS.find? (fun c => !(params.columns.contains c)) = none := by
    rw [List.find?_eq_none]
    intro c hc
    rw [hcols c hc]
    simp
  have hfind2 : params.rows.find?
      (fun r => !(decide (r.label < (spectra.data.length : Int)))) = none := by
    rw [List.find?_eq_none]
    intro r hr
    simp [hidx r hr]
  simp only [Library.init, hfind, hfind2]
  rw [if_neg (not_ne_iff.mpr hlen), if_pos hshape]

theorem init_ok_header (today : String) (wav : List ℚ) (spectra : NDArray3)
    (params : DataFrame) (header : List (String × String)) (wavlim : Option (ℚ × ℚ))
    (lib : Library)
    (h : Library.init today wav (some spectra) (some params) header wavlim = .ok lib) :
    lib.header = setKey header "date_created" today := by
  simp only [Library.init] at h
  split at h
  · exact absurd h (by simp)
  · split at h
    · exact absurd h (by simp)
    · split at h
      · exact absurd h (by simp)
      · split at h
        · injection h with h2
          subst h2
          rfl
        · exact absurd h (by simp)

/-! ### Claim theorems -/

/-- Claim C1.  The claim states that `load` with wavelength limits
`(lo, hi)` containing at least one axis sample returns a `Library` sliced
to the qualifying window.  In the code the windowed branch reads
`h5["library_spectra"]` although no name `h5` exists (and binds
`model_spectra`, leaving `library_spectra` unbound), so whenever a sample
qualifies the call raises `NameError` instead of returning anything: here,
axis `[5000]` and limits `(4999, 5001)` (so `4999 < 5000 < 5001` holds). -/
theorem read_hdf_wavlim_raises_nameError :
    ((4999 : ℚ) < 5000 ∧ (5000 : ℚ) < 5001) ∧
    read_hdf "2026-10-13" sampleParamFile sampleSpecFile (some (4999, 5001)) =
      .error (.nameError "h5") :=
  ⟨⟨by decide, by decide⟩, rfl⟩

/-- Claim C6.  Membership (`index in library`) is true exactly for the
labels of the parameter table (`0 .. len - 1` for an append-built library),
and lookup of an absent index raises `KeyError` after the membership test.
But for a PRESENT index the claim says the (row, spectrum-pair) is
returned, while the code evaluates `self.library_spectra.loc[index]` on a
numpy array, which has no attribute `loc`: the lookup raises
`AttributeError` instead.  Shown on a one-entry library. -/
theorem getitem_present_raises_attributeError :
    sampleLib.len = 1 ∧
    sampleLib.containsIdx 0 = true ∧
    sampleLib.containsIdx 1 = false ∧
    sampleLib.containsIdx (-1) = false ∧
    sampleLib.getitem 1 = .error .keyError ∧
    sampleLib.getitem 0 =
      .error (.attributeError "numpy.ndarray object has no attribute loc") :=
  ⟨rfl, rfl, rfl, rfl, rfl, rfl⟩

/-- Claim C8.  For every saved library, `load` with wavelength limits
`(lo, hi)` such that no axis sample `v` satisfies `lo < v < hi` raises
`IndexError`: `idxwav` is empty and `idxwav[0]` is evaluated on the empty
index array. -/
theorem read_hdf_empty_window_indexError (today : String) (pf : ParamFile)
    (sf : SpecFile) (lo hi : ℚ)
    (h : ∀ v ∈ sf.wav, ¬(lo < v ∧ v < hi)) :
    read_hdf today pf sf (some (lo, hi)) =
      .error (.indexError "index 0 is out of bounds for axis 0 with size 0") := by
  have hfil : ((List.range sf.wav.length).filter
      (fun i => decide (lo < sf.wav.getD i 0) && decide (sf.wav.getD i 0 < hi))) = [] := by
    rw [List.filter_eq_nil_iff]
    intro i hi_mem
    have hlt : i < sf.wav.length := List.mem_range.mp hi_mem
    rw [List.getD_eq_getElem sf.wav 0 hlt]
    have hv := h sf.wav[i] (List.getElem_mem hlt)
    simp only [Bool.and_eq_true, decide_eq_true_eq]
    tauto
  simp only [read_hdf, hfil]

/-- Witness for claim C8 at a concrete input: the axis `[5000]` has no
sample inside `(6000, 6100)`, so the load raises `IndexError`. -/
theorem read_hdf_empty_window_indexError_witness :
    read_hdf "2026-10-12" sampleParamFile sampleSpecFile (some (6000, 6100)) =
      .error (.indexError "index 0 is out of bounds for axis 0 with size 0") :=
  read_hdf_empty_window_indexError "2026-10-12" sampleParamFile sampleSpecFile
    6000 6100 (by decide)

/-- Counterexample to claim C10 as stated.  The claim asserts a
division-by-zero error for EVERY zero-entry library, but the empty
library over an empty wavelength axis -- constructible via the empty
constructor path with an empty axis, tensor shape (0, 2, 0) -- raises
`IndexError` at the slab indexing `library_spectra[:,:,0]` before the
division is ever reached, so there the claimed error never occurs. -/
theorem to_hdf_empty_axis_not_zero_division :
    Library.init "2026-10-12" [] none none [] none = .ok emptyAxisLib ∧
    emptyAxisLib.len = 0 ∧
    emptyAxisLib.to_hdf =
      .error (.indexError "index 0 is out of bounds for axis 2 with size 0") ∧
    emptyAxisLib.to_hdf ≠ .error .zeroDivisionError := by
  have h2 : (Except.error
      (PyError.indexError "index 0 is out of bounds for axis 2 with size 0") :
      Except PyError (ParamFile × SpecFile)) ≠ .error .zeroDivisionError := by
    simp
  exact ⟨rfl, rfl, rfl, h2⟩

/-- Claim C10 (amended).  For every library with `N = 0` entries, saving
never completes.  When the tensor's wavelength axis is non-empty, the
chunk computation divides the fixed 100000-byte target by the byte size
of the empty `(0, 2)` slab `library_spectra[:,:,0]`, which is zero, and
raises an unguarded `ZeroDivisionError`; when the wavelength axis is also
empty, the slab indexing itself already raises `IndexError` before the
division. -/
theorem to_hdf_empty_zero_division (lib : Library)
    (hN : lib.library_spectra.data.length = 0) :
    (lib.library_spectra.shape3 ≠ 0 → lib.to_hdf = .error .zeroDivisionError) ∧
    (lib.library_spectra.shape3 = 0 → lib.to_hdf =
      .error (.indexError "index 0 is out of bounds for axis 2 with size 0")) := by
  constructor
  · intro hW
    simp [Library.to_hdf, hN, hW]
  · intro hW
    simp [Library.to_hdf, hW]

/-- Witness for claim C10 (amended) at concrete inputs: the empty library
over the axis `[5000]` fails to save with `ZeroDivisionError`, and the
empty library over the empty axis fails to save with `IndexError`. -/
theorem to_hdf_empty_zero_division_witness :
    emptyLib.to_hdf = .error .zeroDivisionError ∧
    emptyAxisLib.to_hdf =
      .error (.indexError "index 0 is out of bounds for axis 2 with size 0") :=
  ⟨(to_hdf_empty_zero_division emptyLib rfl).1 (by decide),
   (to_hdf_empty_zero_division emptyAxisLib rfl).2 rfl⟩

/-- Claim C9.  Construction always stamps the header's date_created entry
with today's date: the empty path (either data argument absent) produces a
header that is exactly the single date_created entry, and the full path
overwrites any caller-supplied date_created value while keeping every
other header entry as given. -/
theorem init_stamps_date_created :
    (∀ (today : String) (wav : List ℚ) (sp : Option NDArray3) (pr : Option DataFrame)
       (header : List (String × String)) (wavlim : Option (ℚ × ℚ)),
      sp = none ∨ pr = none →
      ∃ lib, Library.init today wav sp pr header wavlim = .ok lib ∧
        lib.header = [("date_created", today)]) ∧
    (∀ (today : String) (wav : List ℚ) (spectra : NDArray3) (params : DataFrame)
       (header : List (String × String)) (wavlim : Option (ℚ × ℚ)) (lib : Library),
      Library.init today wav (some spectra) (some params) header wavlim = .ok lib →
        lib.header.lookup "date_created" = some today ∧
        ∀ k, k ≠ "date_created" → lib.header.lookup k = header.lookup k) := by
  constructor
  · rintro today wav sp pr header wavlim (rfl | rfl)
    · cases pr <;> exact ⟨_, rfl, rfl⟩
    · cases sp <;> exact ⟨_, rfl, rfl⟩
  · intro today wav spectra params header wavlim lib h
    rw [init_ok_header today wav spectra params header wavlim lib h]
    exact ⟨setKey_lookup_self header "date_created" today,
           fun k hk => setKey_lookup_ne header "date_created" today k hk⟩

/-- Witness for claim C9 at concrete inputs: an empty-path construction,
and a full-path construction with a caller-supplied header holding a stale
date_created value and an extra entry. -/
theorem init_stamps_date_created_witness :
    (∃ lib, Library.init "2026-10-12" [5000] none none [] none = .ok lib ∧
       lib.header = [("date_created", "2026-10-12")]) ∧
    (∃ lib,
       Library.init "2026-10-12" [5000] (some sampleSpectra) (some sampleRowDF)
         [("date_created", "2001-01-01"), ("instrument", "hires")] none = .ok lib ∧
       lib.header.lookup "date_created" = some "2026-10-12" ∧
       lib.header.lookup "instrument" = some "hires") := by
  constructor
  · exact init_stamps_date_created.1 "2026-10-12" [5000] none none [] none (Or.inl rfl)
  · obtain ⟨h1, h2⟩ := init_stamps_date_created.2 "2026-10-12" [5000] sampleSpectra
      sampleRowDF [("date_created", "2001-01-01"), ("instrument", "hires")] none _ rfl
    refine ⟨_, rfl, h1, ?_⟩
    rw [h2 "instrument" (by decide)]
    rfl

/-- Claim C4.  For every axis, parameter table and tensor satisfying
invariants 1-4 (equal lengths, all labels within [0, N), tensor shape
(N, 2, W) with W the axis length, all 19 required columns present),
full-path construction succeeds, stores the table, axis and tensor as
given, and the resulting library's length equals N. -/
theorem init_valid_succeeds (today : String) (wav : List ℚ) (spectra : NDArray3)
    (params : DataFrame) (header : List (String × String)) (wavlim : Option (ℚ × ℚ))
    (hcols : ∀ c ∈ LIB_COLS, params.columns.contains c = true)
    (hlen : params.rows.length = spectra.data.length)
    (hidx : ∀ r ∈ params.rows, 0 ≤ r.label ∧ r.label < (spectra.data.length : Int))
    (hshape : spectra.shape2 = 2 ∧ spectra.shape3 = wav.length) :
    ∃ lib, Library.init today wav (some spectra) (some params) header wavlim = .ok lib ∧
      lib.library_params = params ∧ lib.wav = wav ∧ lib.library_spectra = spectra ∧
      lib.len = spectra.data.length :=
  ⟨_, init_full_ok today wav spectra params header wavlim hcols hlen
    (fun r hr => (hidx r hr).2) hshape, rfl, rfl, rfl, rfl⟩

/-- Witness for claim C4 at a concrete input: a valid one-entry triple
constructs successfully with length 1. -/
theorem init_valid_succeeds_witness :
    ∃ lib, Library.init "2026-10-12" [5000] (some sampleSpectra) (some sampleRowDF)
        [] none = .ok lib ∧
      lib.library_params = sampleRowDF ∧ lib.wav = [5000] ∧
      lib.library_spectra = sampleSpectra ∧ lib.len = 1 :=
  init_valid_succeeds "2026-10-12" [5000] sampleSpectra sampleRowDF [] none
    (by decide) (by decide) (by decide) (by decide)

/-- Counterexample to claim C5 as stated.  The claim says construction
fails with a validation error when a row's library index lies outside
[0, N); but the code checks only the upper bound `i < num_spec`, so a
table whose single row carries the label -1 (outside [0, 1) from below)
is accepted and construction succeeds. -/
theorem init_negative_index_not_rejected :
    ((-1 : Int) < 0) ∧
    Library.init "2026-10-12" [5000] (some sampleSpectra) (some negRowDF) [] none =
      .ok { library_params := negRowDF, wav := [5000], library_spectra := sampleSpectra,
            header := [("date_created", "2026-10-12")], wavlim := none } :=
  ⟨by decide, rfl⟩

/-- Claim C5 (amended).  Full-path construction fails with an assertion
error whose message identifies the violated check: the (first) missing
required column; the table/tensor length mismatch; a row label at least N
-- the code checks only the upper bound of [0, N), so negative labels are
accepted; or a tensor whose axis-1 size is not 2 or axis-2 size is not the
axis length.  Each check is independent: each can fire with the preceding
checks satisfied. -/
theorem init_validation_messages :
    (∀ (today : String) (wav : List ℚ) (spectra : NDArray3) (params : DataFrame)
       (header : List (String × String)) (wavlim : Option (ℚ × ℚ)) (c : String),
      c ∈ LIB_COLS → params.columns.contains c = false →
      ∃ c', c' ∈ LIB_COLS ∧ params.columns.contains c' = false ∧
        Library.init today wav (some spectra) (some params) header wavlim =
          .error (.assertionError (c' ++ " required in parameter table"))) ∧
    (∀ (today : String) (wav : List ℚ) (spectra : NDArray3) (params : DataFrame)
       (header : List (String × String)) (wavlim : Option (ℚ × ℚ)),
      (∀ c ∈ LIB_COLS, params.columns.contains c = true) →
      params.rows.length ≠ spectra.data.length →
      Library.init today wav (some spectra) (some params) header wavlim =
        .error (.assertionError
          "Error: Length of parameter table and library spectra are not equal.")) ∧
    (∀ (today : String) (wav : List ℚ) (spectra : NDArray3) (params : DataFrame)
       (header : List (String × String)) (wavlim : Option (ℚ × ℚ)) (r : Row),
      r ∈ params.rows →
      (∀ c ∈ LIB_COLS, params.columns.contains c = true) →
      params.rows.length = spectra.data.length →
      (spectra.data.length : Int) ≤ r.label →
      ∃ r', r' ∈ params.rows ∧ (spectra.data.length : Int) ≤ r'.label ∧
        Library.init today wav (some spectra) (some params) header wavlim =
          .error (.assertionError ("Error: Index " ++ toString r'.label ++
            " is out of bounds in library_spectra"))) ∧
    (∀ (today : String) (wav : List ℚ) (spectra : NDArray3) (params : DataFrame)
       (header : List (String × String)) (wavlim : Option (ℚ × ℚ)),
      (∀ c ∈ LIB_COLS, params.columns.contains c = true) →
      params.rows.length = spectra.data.length →
      (∀ r ∈ params.rows, r.label < (spectra.data.length : Int)) →
      ¬(spectra.shape2 = 2 ∧ spectra.shape3 = wav.length) →
      Library.init today wav (some spectra) (some params) header wavlim =
        .error (.assertionError ("Error: library_spectra should have shape (" ++
          toString spectra.data.length ++ ", 2, " ++ toString wav.length))) := by
  refine ⟨?_, ?_, ?_, ?_⟩
  · intro today wav spectra params header wavlim c hc hcc
    have hsome : (LIB_COLS.find? (fun c => !(params.columns.contains c))).isSome := by
      rw [List.find?_isSome]
      exact ⟨c, hc, by rw [hcc]; rfl⟩
    obtain ⟨c', hsome⟩ := Option.isSome_iff_exists.mp hsome
    have hp := List.find?_some hsome
    have hmem := List.mem_of_find?_eq_some hsome
    refine ⟨c', hmem, by simpa using hp, ?_⟩
    simp only [Library.init, hsome]
  · intro today wav spectra params header wavlim hcols hne
    have hfind : LIB_COLS.find? (fun c => !(params.columns.contains c)) = none := by
      rw [List.find?_eq_none]
      intro c hc
      rw [hcols c hc]
      simp
    simp only [Library.init, hfind]
    rw [if_pos hne]
  · intro today wav spectra params header wavlim r hr hcols hlen hge
    have hfind : LIB_COLS.find? (fun c => !(params.columns.contains c)) = none := by
      rw [List.find?_eq_none]
      intro c hc
      rw [hcols c hc]
      simp
    have hsome : (params.rows.find?
        (fun r => !(decide (r.label < (spectra.data.length : Int))))).isSome := by
      rw [List.find?_isSome]
      refine ⟨r, hr, ?_⟩
      simp [not_lt.mpr hge]
    obtain ⟨r', hsome⟩ := Option.isSome_iff_exists.mp hsome
    have hp := List.find?_some hsome
    have hmem := List.mem_of_find?_eq_some hsome
    have hge' : (spectra.data.length : Int) ≤ r'.label := by
      simp only [Bool.not_eq_true', decide_eq_false_iff_not, not_lt] at hp
      exact hp
    refine ⟨r', hmem, hge', ?_⟩
    simp only [Library.init, hfind]
    rw [if_neg (not_ne_iff.mpr hlen), hsome]
  · intro today wav spectra params header wavlim hcols hlen hidx hshape
    have hfind : LIB_COLS.find? (fun c => !(params.columns.contains c)) = none := by
      rw [List.find?_eq_none]
      intro c hc
      rw [hcols c hc]
      simp
    have hfind2 : params.rows.find?
        (fun r => !(decide (r.label < (spectra.data.length : Int)))) = none := by
      rw [List.find?_eq_none]
      intro r hr
      simp [hidx r hr]
    simp only [Library.init, hfind, hfind2]
    rw [if_neg (not_ne_iff.mpr hlen), if_neg hshape]

/-- Witness for claim C5 (amended) at concrete inputs: each of the four
checks fires on a concrete invalid input, with the specific message. -/
theorem init_validation_messages_witness :
    (∃ c', c' ∈ LIB_COLS ∧ emptyColsDF.columns.contains c' = false ∧
      Library.init "2026-10-12" [5000] (some sampleSpectra) (some emptyColsDF) [] none =
        .error (.assertionError (c' ++ " required in parameter table"))) ∧
    (Library.init "2026-10-12" [5000] (some { shape2 := 2, shape3 := 1, data := [] })
        (some sampleRowDF) [] none =
      .error (.assertionError
        "Error: Length of parameter table and library spectra are not equal.")) ∧
    (∃ r', r' ∈ oobRowDF.rows ∧ (1 : Int) ≤ r'.label ∧
      Library.init "2026-10-12" [5000] (some sampleSpectra) (some oobRowDF) [] none =
        .error (.assertionError ("Error: Index " ++ toString r'.label ++
          " is out of bounds in library_spectra"))) ∧
    (Library.init "2026-10-12" [5000] (some badShapeSpectra) (some sampleRowDF) [] none =
      .error (.assertionError
        "Error: library_spectra should have shape (1, 2, 1")) := by
  refine ⟨?_, ?_, ?_, ?_⟩
  · exact init_validation_messages.1 "2026-10-12" [5000] sampleSpectra emptyColsDF
      [] none "lib_index" (by decide) (by decide)
  · exact init_validation_messages.2.1 "2026-10-12" [5000]
      { shape2 := 2, shape3 := 1, data := [] } sampleRowDF [] none (by decide) (by decide)
  · exact init_validation_messages.2.2.1 "2026-10-12" [5000] sampleSpectra oobRowDF
      [] none { label := 5, cells := sampleCells } (by decide) (by decide) rfl (by decide)
  · have h := init_validation_messages.2.2.2 "2026-10-12" [5000] badShapeSpectra
      sampleRowDF [] none (by decide) (by decide) (by decide) (by decide)
    exact h

/-- Claim C7.  Every `insert` precondition violation -- table/tensor
length mismatch, a missing required column in the row, or a spectrum whose
length differs from the axis length -- fails with an assertion error whose
message identifies the failed check, and the returned state is the
untouched library: all validation precedes any mutation.  The checks run
in source order, so each case assumes the preceding checks pass. -/
theorem insert_validation_no_mutation :
    (∀ (lib : Library) (params : DataFrame) (spectrum u_spectrum : List ℚ),
      lib.library_params.rows.length ≠ lib.library_spectra.data.length →
      lib.insert params spectrum u_spectrum =
        (lib, some (.assertionError
          "Error: Length of parameter table and library spectra are not equal."))) ∧
    (∀ (lib : Library) (params : DataFrame) (spectrum u_spectrum : List ℚ) (c : String),
      lib.library_params.rows.length = lib.library_spectra.data.length →
      c ∈ LIB_COLS → params.columns.contains c = false →
      ∃ c', c' ∈ LIB_COLS ∧ params.columns.contains c' = false ∧
        lib.insert params spectrum u_spectrum =
          (lib, some (.assertionError (c' ++ " required in parameter specification.")))) ∧
    (∀ (lib : Library) (params : DataFrame) (spectrum u_spectrum : List ℚ),
      lib.library_params.rows.length = lib.library_spectra.data.length →
      (∀ c ∈ LIB_COLS, params.columns.contains c = true) →
      spectrum.length ≠ lib.wav.length →
      lib.insert params spectrum u_spectrum =
        (lib, some (.assertionError
          "Error: spectrum is not the same length as library wavelength array"))) := by
  refine ⟨?_, ?_, ?_⟩
  · intro lib params spectrum u_spectrum hne
    simp only [Library.insert]
    rw [if_pos hne]
  · intro lib params spectrum u_spectrum c hlen hc hcc
    have hsome : (LIB_COLS.find? (fun c => !(params.columns.contains c))).isSome := by
      rw [List.find?_isSome]
      exact ⟨c, hc, by rw [hcc]; rfl⟩
    obtain ⟨c', hsome⟩ := Option.isSome_iff_exists.mp hsome
    have hp := List.find?_some hsome
    have hmem := List.mem_of_find?_eq_some hsome
    refine ⟨c', hmem, by simpa using hp, ?_⟩
    simp only [Library.insert, hsome]
    rw [if_neg (not_ne_iff.mpr hlen)]
  · intro lib params spectrum u_spectrum hlen hcols hne
    have hfind : LIB_COLS.find? (fun c => !(params.columns.contains c)) = none := by
      rw [List.find?_eq_none]
      intro c hc
      rw [hcols c hc]
      simp
    simp only [Library.insert, hfind]
    rw [if_neg (not_ne_iff.mpr hlen), if_pos hne]

/-- Witness for claim C7 at concrete inputs: each of the three insert
checks fires -- a corrupted library whose table and array lengths differ,
a row with no columns, and a two-sample spectrum against the one-sample
axis -- and each returns the unmodified library with its message. -/
theorem insert_validation_no_mutation_witness :
    (Library.insert
        { library_params := sampleRowDF, wav := [5000],
          library_spectra := { shape2 := 2, shape3 := 1, data := [] },
          header := [], wavlim := none } sampleRowDF [1] [1] =
      ({ library_params := sampleRowDF, wav := [5000],
         library_spectra := { shape2 := 2, shape3 := 1, data := [] },
         header := [], wavlim := none },
       some (.assertionError
         "Error: Length of parameter table and library spectra are not equal."))) ∧
    (∃ c', c' ∈ LIB_COLS ∧ emptyColsDF.columns.contains c' = false ∧
      sampleLib.insert emptyColsDF [1] [1] =
        (sampleLib, some (.assertionError (c' ++ " required in parameter specification.")))) ∧
    (sampleLib.insert sampleRowDF [1, 2] [1, 2] =
      (sampleLib, some (.assertionError
        "Error: spectrum is not the same length as library wavelength array"))) := by
  refine ⟨?_, ?_, ?_⟩
  · exact insert_validation_no_mutation.1 _ sampleRowDF [1] [1] (by decide)
  · exact insert_validation_no_mutation.2.1 sampleLib emptyColsDF [1] [1] "lib_index"
      (by decide) (by decide) (by decide)
  · exact insert_validation_no_mutation.2.2 sampleLib sampleRowDF [1, 2] [1, 2]
      (by decide) (by decide) (by decide)

/-- Counterexample to claim C2 as stated.  The claim quantifies over every
non-empty library, but the perfectly valid one-entry library over a
one-sample axis cannot even be saved: the save path computes the chunk
shape `(1, 2, int(100e3 / 16)) = (1, 2, 6250)`, whose wavelength dimension
6250 exceeds the dataset's axis size W = 1, so `create_dataset` raises
`ValueError` and no files are ever produced to load. -/
theorem save_fails_on_chunk_shape :
    sampleLib.len = 1 ∧
    sampleLib.to_hdf =
      .error (.valueError
        "Chunk shape must not be greater than data shape in any dimension") :=
  ⟨rfl, rfl⟩

/-- Claim C2 (amended).  For every valid non-empty library whose chunk
column count `C = 100000 / (16 N)` (the integer division computed by the
save path) is at least 1 and at most the axis length W -- the condition
under which `create_dataset` accepts the chunk shape `(N, 2, C)` --
`to_hdf` succeeds and `read_hdf` of the two files with no wavelength
limits yields a library with the identical parameter table, identical
wavelength axis, identical spectrum tensor, and the same header apart
from the date_created entry, which is re-stamped with the load-time
date.  Libraries outside that chunk window cannot be saved at all (see
the counterexample). -/
theorem save_load_roundtrip (lib : Library) (today : String)
    (hcols : ∀ c ∈ LIB_COLS, lib.library_params.columns.contains c = true)
    (hlen : lib.library_params.rows.length = lib.library_spectra.data.length)
    (hidx : ∀ r ∈ lib.library_params.rows,
      r.label < (lib.library_spectra.data.length : Int))
    (hshape : lib.library_spectra.shape2 = 2 ∧
      lib.library_spectra.shape3 = lib.wav.length)
    (hN : lib.library_spectra.data.length ≠ 0)
    (hchunk1 : 100000 / (lib.library_spectra.data.length *
      lib.library_spectra.shape2 * 8) ≠ 0)
    (hchunk2 : 100000 / (lib.library_spectra.data.length *
      lib.library_spectra.shape2 * 8) ≤ lib.library_spectra.shape3) :
    ∃ pf sf lib2,
      lib.to_hdf = .ok (pf, sf) ∧
      read_hdf today pf sf none = .ok lib2 ∧
      lib2.library_params = lib.library_params ∧
      lib2.wav = lib.wav ∧
      lib2.library_spectra = lib.library_spectra ∧
      lib2.header.lookup "date_created" = some today ∧
      (∀ k, k ≠ "date_created" → lib2.header.lookup k = lib.header.lookup k) := by
  have hW3 : ¬(lib.library_spectra.shape3 = 0) := by
    intro h0
    rw [h0, Nat.le_zero] at hchunk2
    exact hchunk1 hchunk2
  have hnb : ¬(lib.library_spectra.data.length * lib.library_spectra.shape2 * 8 = 0) := by
    rw [hshape.1]
    exact Nat.mul_ne_zero (Nat.mul_ne_zero hN (by norm_num)) (by norm_num)
  have hbig : ¬(lib.library_spectra.data.length > lib.library_spectra.data.length ∨
      2 > lib.library_spectra.shape2 ∨
      100000 / (lib.library_spectra.data.length * lib.library_spectra.shape2 * 8) >
        lib.library_spectra.shape3) := by
    push_neg
    exact ⟨le_refl _, by simp [hshape.1], hchunk2⟩
  have hzero : ¬(lib.library_spectra.data.length = 0 ∨
      100000 / (lib.library_spectra.data.length * lib.library_spectra.shape2 * 8) = 0) := by
    push_neg
    exact ⟨hN, hchunk1⟩
  have hto : lib.to_hdf = .ok ({ df := lib.library_params },
      { attrs := lib.header, wav := lib.wav,
        library_spectra := lib.library_spectra }) := by
    simp only [Library.to_hdf]
    rw [if_neg hW3, if_neg hnb, if_neg hbig, if_neg hzero]
  have hload := init_full_ok today lib.wav lib.library_spectra lib.library_params
    lib.header none hcols hlen hidx hshape
  exact ⟨_, _, _, hto, hload, rfl, rfl, rfl,
    setKey_lookup_self lib.header "date_created" today,
    fun k hk => setKey_lookup_ne lib.header "date_created" today k hk⟩

/-- Witness for claim C2 (amended) at a concrete input: the 79-entry,
79-sample library (chunk column count 100000 / 1264 = 79 = W) saves and
round-trips, with a fresh load-time date stamp. -/
theorem save_load_roundtrip_witness :
    ∃ pf sf lib2,
      bigLib.to_hdf = .ok (pf, sf) ∧
      read_hdf "2026-10-13" pf sf none = .ok lib2 ∧
      lib2.library_params = bigLib.library_params ∧
      lib2.wav = bigLib.wav ∧
      lib2.library_spectra = bigLib.library_spectra ∧
      lib2.header.lookup "date_created" = some "2026-10-13" ∧
      (∀ k, k ≠ "date_created" → lib2.header.lookup k = bigLib.header.lookup k) :=
  save_load_roundtrip bigLib "2026-10-13" (by decide) (by decide) (by decide)
    (by decide) (by decide) (by decide) (by decide)

/-! ### Insert helper lemmas -/

theorem mem_of_contains {l : List String} {a : String} (h : l.contains a = true) :
    a ∈ l := by
  simpa using h

theorem enumFrom_relabel_map_cells (l : List Row) (k : Nat) :
    ((List.enumFrom k l).map (fun p => { p.2 with label := (p.1 : Int) })).map Row.cells
      = l.map Row.cells := by
  induction l generalizing k with
  | nil => rfl
  | cons a t ih => simp [List.enumFrom, ih]

theorem enumFrom_relabel_map_label (l : List Row) (k : Nat) :
    ((List.enumFrom k l).map (fun p => { p.2 with label := (p.1 : Int) })).map Row.label
      = (List.range' k l.length).map (fun n : Nat => (n : Int)) := by
  induction l generalizing k with
  | nil => rfl
  | cons a t ih => simp [List.enumFrom, List.range', ih]

theorem enumFrom_relabel_length (l : List Row) (k : Nat) :
    ((List.enumFrom k l).map (fun p => { p.2 with label := (p.1 : Int) })).length
      = l.length := by
  simp

theorem setCell_lookup_self (r : Row) (k : String) (v : PValue)
    (hk : k ∈ r.cells.map Prod.fst) :
    (r.setCell k v).cells.lookup k = some v :=
  lookup_map_replace r.cells k v hk

theorem idxMap_succ (n : Nat) :
    idxMap (n + 1) = idxMap n ++ [some (PValue.int (n : Int))] := by
  simp [idxMap, List.range_succ]

theorem insert_ok_effect (lib : Library) (params : DataFrame)
    (spectrum u_spectrum : List ℚ)
    (hlen : lib.library_params.rows.length = lib.library_spectra.data.length)
    (hcols : ∀ c ∈ LIB_COLS, params.columns.contains c = true)
    (hspec : spectrum.length = lib.wav.length) :
    lib.insert params spectrum u_spectrum =
      ({ library_params :=
           lib.library_params.concatIgnoreIndex
             (params.setCol "lib_index"
               (.int (lib.library_spectra.data.length : Int))),
         wav := lib.wav,
         library_spectra := { lib.library_spectra with
           data := lib.library_spectra.data ++ [[spectrum, u_spectrum]] },
         header := lib.header, wavlim := lib.wavlim }, none) := by
  have hfind : LIB_COLS.find? (fun c => !(params.columns.contains c)) = none := by
    rw [List.find?_eq_none]
    intro c hc
    rw [hcols c hc]
    simp
  simp only [Library.insert, hfind]
  rw [if_neg (not_ne_iff.mpr hlen), if_neg (not_ne_iff.mpr hspec)]

theorem insert_ok_properties (lib : Library) (params : DataFrame) (r : Row)
    (spectrum u_spectrum : List ℚ)
    (hlen : lib.library_params.rows.length = lib.library_spectra.data.length)
    (hrows : params.rows = [r])
    (hcols : ∀ c ∈ LIB_COLS, params.columns.contains c = true)
    (hkeys : r.cells.map Prod.fst = params.columns)
    (hspec : spectrum.length = lib.wav.length) :
    ∃ lib2, lib.insert params spectrum u_spectrum = (lib2, none) ∧
      lib2.wav = lib.wav ∧ lib2.header = lib.header ∧ lib2.wavlim = lib.wavlim ∧
      lib2.library_spectra.shape2 = lib.library_spectra.shape2 ∧
      lib2.library_spectra.shape3 = lib.library_spectra.shape3 ∧
      lib2.library_spectra.data = lib.library_spectra.data ++ [[spectrum, u_spectrum]] ∧
      lib2.library_params.rows.length = lib.library_params.rows.length + 1 ∧
      lib2.library_params.rows.map Row.cells =
        lib.library_params.rows.map Row.cells ++
          [(r.setCell "lib_index" (PValue.int (lib.len : Int))).cells] ∧
      lib2.library_params.rows.map Row.label =
        (List.range' 0 (lib.library_params.rows.length + 1)).map (fun n : Nat => (n : Int)) ∧
      (r.setCell "lib_index" (PValue.int (lib.len : Int))).cells.lookup "lib_index" =
        some (PValue.int (lib.len : Int)) := by
  refine ⟨_, insert_ok_effect lib params spectrum u_spectrum hlen hcols hspec,
    rfl, rfl, rfl, rfl, rfl, rfl, ?_, ?_, ?_, ?_⟩
  · show ((lib.library_params.rows ++
        (params.setCol "lib_index" (.int (lib.library_spectra.data.length : Int))).rows).enum.map
          (fun p => ({ p.2 with label := (p.1 : Int) } : Row))).length = _
    simp [DataFrame.setCol, hrows]
  · show ((lib.library_params.rows ++
        (params.setCol "lib_index" (.int (lib.library_spectra.data.length : Int))).rows).enum.map
          (fun p => ({ p.2 with label := (p.1 : Int) } : Row))).map Row.cells = _
    rw [List.enum, enumFrom_relabel_map_cells]
    simp only [DataFrame.setCol, hrows, List.map_cons, List.map_nil, List.map_append]
    rfl
  · show ((lib.library_params.rows ++
        (params.setCol "lib_index" (.int (lib.library_spectra.data.length : Int))).rows).enum.map
          (fun p => ({ p.2 with label := (p.1 : Int) } : Row))).map Row.label = _
    rw [List.enum, enumFrom_relabel_map_label]
    simp [DataFrame.setCol, hrows]
  · apply setCell_lookup_self
    rw [hkeys]
    exact mem_of_contains (hcols "lib_index" (by decide))

theorem insertAll_from_invariant (items : List (DataFrame × List ℚ × List ℚ)) :
    ∀ (lib : Library),
    (∀ x ∈ items, validItem lib.wav x) →
    lib.library_params.rows.length = lib.library_spectra.data.length →
    lib.library_params.rows.map (fun r => r.cells.lookup "lib_index") = idxMap lib.len →
    lib.library_params.rows.map Row.label =
      (List.range' 0 lib.len).map (fun n : Nat => (n : Int)) →
    ∃ libk, lib.insertAll items = (libk, none) ∧
      libk.wav = lib.wav ∧
      libk.len = lib.len + items.length ∧
      libk.library_params.rows.length = lib.len + items.length ∧
      libk.library_params.rows.map (fun r => r.cells.lookup "lib_index") =
        idxMap (lib.len + items.length) ∧
      libk.library_params.rows.map Row.label =
        (List.range' 0 (lib.len + items.length)).map (fun n : Nat => (n : Int)) := by
  induction items with
  | nil =>
    intro lib hv hlen hmap hlab
    refine ⟨lib, rfl, rfl, by simp, ?_, by simpa using hmap, by simpa using hlab⟩
    show lib.library_params.rows.length = lib.len + 0
    simpa using hlen
  | cons x rest ih =>
    intro lib hv hlen hmap hlab
    obtain ⟨p, s, u⟩ := x
    obtain ⟨hone, hkeysAll, hcolsx, hslen⟩ := hv (p, s, u) (List.mem_cons_self _ _)
    obtain ⟨r, hrows⟩ := List.length_eq_one.mp hone
    have hkeys : r.cells.map Prod.fst = p.columns :=
      hkeysAll r (by rw [hrows]; exact List.mem_cons_self _ _)
    obtain ⟨lib2, heq, hw2, _hh2, _hwl2, _hs2, _hs3, hdata2, hlen2, hcells2, hlab2, hlook2⟩ :=
      insert_ok_properties lib p r s u hlen hrows hcolsx hkeys hslen
    have hlen2' : lib2.library_params.rows.length = lib2.library_spectra.data.length := by
      rw [hlen2, hdata2]
      simp [hlen]
    have hlibl2 : lib2.len = lib.len + 1 := by
      show lib2.library_spectra.data.length = _
      rw [hdata2]
      simp [Library.len]
    have hcomp : ∀ (L : List Row), L.map (fun r => r.cells.lookup "lib_index") =
        (L.map Row.cells).map (fun cs => cs.lookup "lib_index") := by
      intro L
      rw [List.map_map]
      rfl
    have hmap2 : lib2.library_params.rows.map (fun r => r.cells.lookup "lib_index") =
        idxMap lib2.len := by
      rw [hcomp lib2.library_params.rows, hcells2, List.map_append,
        ← hcomp lib.library_params.rows, hmap, hlibl2, idxMap_succ]
      simp [hlook2]
    have hlab2' : lib2.library_params.rows.map Row.label =
        (List.range' 0 lib2.len).map (fun n : Nat => (n : Int)) := by
      rw [hlab2, hlibl2, hlen]
      rfl
    have hv2 : ∀ x ∈ rest, validItem lib2.wav x := by
      intro x hx
      rw [hw2]
      exact hv x (List.mem_cons_of_mem _ hx)
    obtain ⟨libk, hky, hkw, hklen, hkrows, hkmap, hklab⟩ :=
      ih lib2 hv2 hlen2' hmap2 hlab2'
    have harith : lib2.len + rest.length = lib.len + (rest.length + 1) := by
      rw [hlibl2]
      omega
    refine ⟨libk, ?_, by rw [hkw, hw2], ?_, ?_, ?_, ?_⟩
    · simp only [Library.insertAll, heq]
      exact hky
    · rw [hklen, harith]
      rfl
    · rw [hkrows, harith]
      rfl
    · rw [hkmap, harith]
      rfl
    · rw [hklab, harith]
      rfl

/-- Claim C3.  A valid insert assigns the current entry count as the new
row's `lib_index`, appends the row's cells as the last row of the
parameter table with the existing rows' order preserved, and appends the
`[spectrum, u_spectrum]` pair as a new leading-axis slab of the spectrum
array.  Consequently `k` sequential inserts on an empty library produce a
library of length `k` whose `lib_index` column is `0 .. k-1` in order
(and whose table labels are `0 .. k-1` as well). -/
theorem insert_appends_and_indexes :
    (∀ (lib : Library) (params : DataFrame) (r : Row) (spectrum u_spectrum : List ℚ),
      lib.library_params.rows.length = lib.library_spectra.data.length →
      params.rows = [r] →
      (∀ c ∈ LIB_COLS, params.columns.contains c = true) →
      r.cells.map Prod.fst = params.columns →
      spectrum.length = lib.wav.length →
      ∃ lib2, lib.insert params spectrum u_spectrum = (lib2, none) ∧
        lib2.len = lib.len + 1 ∧
        lib2.library_params.rows.map Row.cells =
          lib.library_params.rows.map Row.cells ++
            [(r.setCell "lib_index" (PValue.int (lib.len : Int))).cells] ∧
        (r.setCell "lib_index" (PValue.int (lib.len : Int))).cells.lookup "lib_index" =
          some (PValue.int (lib.len : Int)) ∧
        lib2.library_spectra.data =
          lib.library_spectra.data ++ [[spectrum, u_spectrum]]) ∧
    (∀ (today : String) (wav : List ℚ) (items : List (DataFrame × List ℚ × List ℚ))
       (lib0 : Library),
      Library.init today wav none none [] none = .ok lib0 →
      (∀ x ∈ items, validItem wav x) →
      ∃ libk, lib0.insertAll items = (libk, none) ∧
        libk.len = items.length ∧
        libk.library_params.rows.length = items.length ∧
        libk.library_params.rows.map (fun r => r.cells.lookup "lib_index") =
          idxMap items.length ∧
        libk.library_params.rows.map Row.label =
          (List.range' 0 items.length).map (fun n : Nat => (n : Int))) := by
  constructor
  · intro lib params r spectrum u_spectrum hlen hrows hcols hkeys hspec
    obtain ⟨lib2, heq, _hw, _hh, _hwl, _h2, _h3, hdata, hlenr, hcells, _hlab, hlook⟩ :=
      insert_ok_properties lib params r spectrum u_spectrum hlen hrows hcols hkeys hspec
    refine ⟨lib2, heq, ?_, hcells, hlook, hdata⟩
    show lib2.library_spectra.data.length = lib.library_spectra.data.length + 1
    rw [hdata]
    simp
  · intro today wav items lib0 h0 hv
    simp only [Library.init] at h0
    injection h0 with h0
    subst h0
    obtain ⟨libk, h1, _hw, h2, h3, h4, h5⟩ := insertAll_from_invariant items
      { library_params := { columns := LIB_COLS, rows := [] }, wav := wav,
        library_spectra := { shape2 := 2, shape3 := wav.length, data := [] },
        header := [("date_created", today)], wavlim := none }
      hv rfl rfl rfl
    exact ⟨libk, h1, by simpa [Library.len] using h2, by simpa [Library.len] using h3,
      by simpa [Library.len] using h4, by simpa [Library.len] using h5⟩

/-- Witness for claim C3 at concrete inputs: one insert into the one-entry
library, and two sequential inserts into a freshly constructed empty
library, producing indices 0 and 1. -/
theorem insert_appends_and_indexes_witness :
    (∃ lib2, sampleLib.insert sampleRowDF [2] [3] = (lib2, none) ∧
      lib2.len = 2 ∧
      lib2.library_params.rows.map Row.cells =
        sampleLib.library_params.rows.map Row.cells ++
          [(Row.setCell { label := 0, cells := sampleCells } "lib_index"
              (PValue.int 1)).cells] ∧
      (Row.setCell { label := 0, cells := sampleCells } "lib_index"
          (PValue.int 1)).cells.lookup "lib_index" = some (PValue.int 1) ∧
      lib2.library_spectra.data = sampleLib.library_spectra.data ++ [[[2], [3]]]) ∧
    (∃ libk,
      Library.insertAll
        { library_params := { columns := LIB_COLS, rows := [] }, wav := [5000],
          library_spectra := { shape2 := 2, shape3 := 1, data := [] },
          header := [("date_created", "2026-10-12")], wavlim := none }
        [(sampleRowDF, [1], [1]), (sampleRowDF, [2], [2])] = (libk, none) ∧
      libk.len = 2 ∧
      libk.library_params.rows.length = 2 ∧
      libk.library_params.rows.map (fun r => r.cells.lookup "lib_index") =
        [some (PValue.int 0), some (PValue.int 1)] ∧
      libk.library_params.rows.map Row.label = [0, 1]) := by
  constructor
  · exact insert_appends_and_indexes.1 sampleLib sampleRowDF
      { label := 0, cells := sampleCells } [2] [3] rfl rfl (by decide) (by decide) rfl
  · obtain ⟨libk, h1, h2, h3, h4, h5⟩ := insert_appends_and_indexes.2 "2026-10-12" [5000]
      [(sampleRowDF, [1], [1]), (sampleRowDF, [2], [2])] _ rfl (by decide)
    exact ⟨libk, h1, h2, h3, by rw [h4]; rfl, by rw [h5]; rfl⟩

end SpecMatchEmp
